import Mathlib

/-!
Shallow embedding of the visit-tracking and vendor-asset code of the
Django_saas repository.

Embedded source files:
- `apps/visits/models.py` — the `Visit` model (a path per row; the database
  is modelled as the list of recorded paths).
- `apps/visits/views.py` — `BaseVisitView` (`record_page_visit`,
  `_invalidate_visit_cache`, `get_total_visit_count`, `get_page_visit_count`,
  `get_page_visit_percentage`).
- `apps/visits/middleware.py` — `VisitMiddleware.__call__` and
  `VisitMiddleware.should_track`.
- `config/views.py` — `HomePageView` (same accessor bodies as
  `BaseVisitView`, but `record_page_visit` has no try/except).
- `apps/commando/management/commands/vendor_pull.py` — `Command.handle`,
  `Command._get_vendors_directory`, `Command._display_results`.
- `helpers/downloader.py` — `download_to_local`.

The Django cache is modelled as an association list from string keys to
rational values (counts are stored as integers, percentages as floats; both
fit in `ℚ`).  `cache.set(key, v, timeout)` stores `v` under `key`; expiry is
not part of the model, so "present in the cache" stands for "present and not
yet expired".  The database insert `Visit.objects.create(path=...)` either
succeeds (appending the path to the row list) or raises; the Boolean
`insertOk` parameter selects which, standing for the database's behaviour.
Python's `round(x, 2)` is modelled as rounding to a rational with two
decimal places.
-/

/-- ASCII lower-casing of one character, as `str.lower` acts on the ASCII
characters appearing in paths and user-agent strings. -/
def lowerChar (c : Char) : Char :=
  if 65 ≤ c.toNat ∧ c.toNat ≤ 90 then Char.ofNat (c.toNat + 32) else c

/-- `s.lower()` on ASCII strings. -/
def strLower (s : String) : String := ⟨s.data.map lowerChar⟩

/-- Does the first list occur at the front of the second? -/
def leadEq : List Char → List Char → Bool
  | [], _ => true
  | _ :: _, [] => false
  | a :: as, b :: bs => a == b && leadEq as bs

/-- Does `sub` occur contiguously somewhere in the second list? -/
def occursIn (sub : List Char) : List Char → Bool
  | [] => leadEq sub []
  | c :: cs => leadEq sub (c :: cs) || occursIn sub cs

/-- Python's `sub in s` substring test. -/
def strContains (s sub : String) : Bool := occursIn sub.data s.data

/-- Python's `s.endswith(t)`. -/
def strEndsWith (s t : String) : Bool := leadEq t.data.reverse s.data.reverse

/-- Python's `s.startswith(t)`. -/
def strStartsWith (s t : String) : Bool := leadEq t.data s.data

/-- Python's `round(q, 2)`: the nearest multiple of 1/100. -/
def round2 (q : ℚ) : ℚ := (round (q * 100) : ℤ) / 100

/-- The visits table: one recorded path per row
(`apps/visits/models.py`, class `Visit`). -/
abbrev DB := List String

/-- The Django cache, as a key–value association list. -/
abbrev Cache := List (String × ℚ)

/-- `cache.get(key)`: the value stored under `k`, if present. -/
def cacheGet (c : Cache) (k : String) : Option ℚ :=
  match c.find? (fun e => e.1 == k) with
  | some e => some e.2
  | none => none

/-- `cache.set(key, v, timeout)`: store `v` under `k`. -/
def cacheSet (c : Cache) (k : String) (v : ℚ) : Cache :=
  (k, v) :: c.filter (fun e => !(e.1 == k))

/-- Deletion of one key from the cache. -/
def cacheDelete (c : Cache) (k : String) : Cache :=
  c.filter (fun e => !(e.1 == k))

/-- `cache.delete_many(keys)`. -/
def cacheDeleteMany (c : Cache) (ks : List String) : Cache :=
  ks.foldl cacheDelete c

/-- The cache key `"total_visit_count"` (`apps/visits/views.py` line 55). -/
def totalKey : String := "total_visit_count"

/-- The cache key `f"page_visit_count_{path}"` (`apps/visits/views.py` line 76). -/
def pageCountKey (path : String) : String := "page_visit_count_" ++ path

/-- The cache key `f"page_visit_percentage_{path}"` (`apps/visits/views.py` line 98). -/
def pagePctKey (path : String) : String := "page_visit_percentage_" ++ path

/-- Result of one cache accessor call: the returned value, the cache after
the call, and how many times the accessor recomputed its value from the
underlying store during the call. -/
structure AccessResult where
  value : ℚ
  cache : Cache
  recomputes : ℕ
deriving Repr, DecidableEq

/-- `BaseVisitView.get_total_visit_count` (`apps/visits/views.py` lines 45–62):
on a cache miss, recompute `Visit.objects.count()` and store it. -/
def get_total_visit_count (db : DB) (c : Cache) : AccessResult :=
  match cacheGet c totalKey with
  | some v => ⟨v, c, 0⟩
  | none => ⟨(db.length : ℚ), cacheSet c totalKey (db.length : ℚ), 1⟩

/-- `BaseVisitView.get_page_visit_count` (`apps/visits/views.py` lines 64–83):
on a cache miss, recompute `Visit.objects.filter(path=path).count()` and
store it. -/
def get_page_visit_count (db : DB) (c : Cache) (path : String) : AccessResult :=
  match cacheGet c (pageCountKey path) with
  | some v => ⟨v, c, 0⟩
  | none =>
    ⟨((db.filter (fun q => q == path)).length : ℚ),
      cacheSet c (pageCountKey path) ((db.filter (fun q => q == path)).length : ℚ), 1⟩

/-- `BaseVisitView.get_page_visit_percentage` (`apps/visits/views.py`
lines 85–113): on a cache miss, read the total through
`get_total_visit_count`; if it is zero the percentage is 0.0, otherwise it is
`round(page_count / total_count * 100, 2)` with the page count read through
`get_page_visit_count`; the result is stored under the percentage key. -/
def get_page_visit_percentage (db : DB) (c : Cache) (path : String) : AccessResult :=
  match cacheGet c (pagePctKey path) with
  | some v => ⟨v, c, 0⟩
  | none =>
    let t := get_total_visit_count db c
    if t.value = 0 then
      ⟨0, cacheSet t.cache (pagePctKey path) 0, 1⟩
    else
      let pc := get_page_visit_count db t.cache path
      let pct := round2 (pc.value / t.value * 100)
      ⟨pct, cacheSet pc.cache (pagePctKey path) pct, 1⟩

/-- `BaseVisitView._invalidate_visit_cache` (`apps/visits/views.py`
lines 31–43) and the identical `HomePageView._invalidate_visit_cache`
(`config/views.py` lines 81–93): delete the three keys for `path`. -/
def invalidate_visit_cache (c : Cache) (path : String) : Cache :=
  cacheDeleteMany c [totalKey, pageCountKey path, pagePctKey path]

/-- Outcome of one visit-recording operation: the database and cache
afterwards, whether an error was logged, and whether an exception escaped
the operation (so the page response is not produced). -/
structure RecordResult where
  db : DB
  cache : Cache
  logged : Bool
  raised : Bool
deriving Repr, DecidableEq

/-- `BaseVisitView.record_page_visit` (`apps/visits/views.py` lines 13–29):
`Visit.objects.create(path=request.path)` then `_invalidate_visit_cache`,
inside `try/except Exception`: on failure the error is logged and
swallowed. -/
def BaseVisitView.record_page_visit (db : DB) (c : Cache) (path : String)
    (insertOk : Bool) : RecordResult :=
  if insertOk then
    { db := db ++ [path], cache := invalidate_visit_cache c path,
      logged := false, raised := false }
  else
    { db := db, cache := c, logged := true, raised := false }

/-- `HomePageView.record_page_visit` (`config/views.py` lines 66–79):
`PageVisit.objects.create(path=request.path)` then
`_invalidate_visit_cache`, with no try/except — an insert error
propagates. -/
def HomePageView.record_page_visit (db : DB) (c : Cache) (path : String)
    (insertOk : Bool) : RecordResult :=
  if insertOk then
    { db := db ++ [path], cache := invalidate_visit_cache c path,
      logged := false, raised := false }
  else
    { db := db, cache := c, logged := false, raised := true }

/-- An inbound HTTP request: method, path, and the two headers the
middleware reads (`request.headers.get` returns `None` when absent). -/
structure Request where
  method : String
  path : String
  xRequestedWith : Option String
  userAgent : Option String
deriving Repr, DecidableEq

/-- The extension list of `VisitMiddleware.should_track`
(`apps/visits/middleware.py` lines 59–74). -/
def trackExtensions : List String :=
  [".css", ".js", ".jpg", ".jpeg", ".png", ".gif", ".ico", ".svg",
   ".woff", ".woff2", ".ttf", ".eot", ".map", ".json"]

/-- The bot substrings of `VisitMiddleware.should_track`
(`apps/visits/middleware.py` line 80). -/
def botSubstrings : List String := ["bot", "crawler", "spider", "scraper"]

/-- `VisitMiddleware.should_track` (`apps/visits/middleware.py`
lines 38–84): exclude static/media prefixes, the AJAX header, static-asset
extensions (on the lower-cased path), and bot user agents (substring test on
the lower-cased user agent, absent header read as ""). -/
def VisitMiddleware.should_track (r : Request) : Bool :=
  if strStartsWith r.path "/static/" || strStartsWith r.path "/media/" then
    false
  else if r.xRequestedWith == some "XMLHttpRequest" then
    false
  else if trackExtensions.any (fun ext => strEndsWith (strLower r.path) ext) then
    false
  else if botSubstrings.any (fun b => strContains (strLower (r.userAgent.getD "")) b) then
    false
  else
    true

/-- `VisitMiddleware.__call__` (`apps/visits/middleware.py` lines 21–36):
when `request.method == "GET" and self.should_track(request)`, run
`Visit.objects.create(path=request.path)` with no try/except and no cache
invalidation; an insert error propagates and the response is never
produced. -/
def VisitMiddleware.call (db : DB) (c : Cache) (r : Request)
    (insertOk : Bool) : RecordResult :=
  if r.method == "GET" && VisitMiddleware.should_track r then
    if insertOk then
      { db := db ++ [r.path], cache := c, logged := false, raised := false }
    else
      { db := db, cache := c, logged := false, raised := true }
  else
    { db := db, cache := c, logged := false, raised := false }

/-- The `VENDOR_STATICFILES` map of
`apps/commando/management/commands/vendor_pull.py` (lines 12–17), as the
ordered list of filename/URL pairs the command iterates over. -/
def VENDOR_STATICFILES : List (String × String) :=
  [("saas-theme.min.css",
    "https://raw.githubusercontent.com/codingforentrepreneurs/SaaS-Foundations/main/src/staticfiles/theme/saas-theme.min.css"),
   ("flowbite.min.css",
    "https://cdnjs.cloudflare.com/ajax/libs/flowbite/2.3.0/flowbite.min.css"),
   ("flowbite.min.js",
    "https://cdnjs.cloudflare.com/ajax/libs/flowbite/2.3.0/flowbite.min.js"),
   ("flowbite.min.js.map",
    "https://cdnjs.cloudflare.com/ajax/libs/flowbite/2.3.0/flowbite.min.js.map")]

/-- Accumulated outcome of the download loop of `Command.handle`
(`vendor_pull.py` lines 55–84): `completed` is `completed_urls`, `failed`
is `failed_downloads` (filename/URL pairs), `attempted` lists the entries
for which `download_to_local` was called, and `skipped` the filenames
reported as already existing. -/
structure PullResult where
  completed : List String
  failed : List (String × String)
  attempted : List (String × String)
  skipped : List String
deriving Repr, DecidableEq

/-- The `for filename, url in VENDOR_STATICFILES.items()` loop of
`Command.handle` (`vendor_pull.py` lines 59–81).  `ex` tells whether the
destination file of a given filename already exists, `dl` tells whether
`download_to_local` succeeds for a given URL.  An existing file with the
force flag off is skipped and its URL appended to `completed_urls`;
otherwise the download is attempted and the entry goes to `completed_urls`
on success or `failed_downloads` on failure; the loop always continues to
the next entry. -/
def Command.handleLoop (force : Bool) (ex dl : String → Bool) :
    List (String × String) → PullResult
  | [] => ⟨[], [], [], []⟩
  | e :: rest =>
    let t := Command.handleLoop force ex dl rest
    if ex e.1 && !force then
      ⟨e.2 :: t.completed, t.failed, t.attempted, e.1 :: t.skipped⟩
    else if dl e.2 then
      ⟨e.2 :: t.completed, t.failed, e :: t.attempted, t.skipped⟩
    else
      ⟨t.completed, e :: t.failed, e :: t.attempted, t.skipped⟩

/-- The final summary printed by `Command._display_results`
(`vendor_pull.py` lines 108–148). -/
inductive Summary where
  | allSuccess (totalFiles : ℕ)
  | mixedSuccess (successCount totalFiles : ℕ) (failedList : List (String × String))
  | allFailed (failedCount : ℕ)
deriving Repr, DecidableEq

/-- `Command._display_results` (`vendor_pull.py` lines 108–148): with no
failures, report that all `total_files` vendor files were successfully
downloaded; with at least one success, report partial success and list the
failed filename/URL pairs; otherwise report total failure. -/
def Command.display_results (totalFiles : ℕ) (completed : List String)
    (failed : List (String × String)) : Summary :=
  if failed.length = 0 then
    .allSuccess totalFiles
  else if completed.length > 0 then
    .mixedSuccess completed.length totalFiles failed
  else
    .allFailed failed.length

/-- The error message of `Command._get_vendors_directory`
(`vendor_pull.py` lines 98–101). -/
def vendorDirErrorMsg : String :=
  "STATICFILES_VENDOR_DIR is not defined in settings. Please add it to your Django settings."

/-- `Command.handle` (`vendor_pull.py` lines 35–84): first
`_get_vendors_directory` reads `settings.STATICFILES_VENDOR_DIR` and raises
`CommandError` when it is absent — before the download loop runs — then the
loop processes every entry and `_display_results` prints the summary.  The
`.error` result carries the `CommandError` message; nothing else happens in
that case. -/
def Command.handle (vendorDirSetting : Option String) (force : Bool)
    (ex dl : String → Bool) (entries : List (String × String)) :
    Except String (PullResult × Summary) :=
  match vendorDirSetting with
  | none => .error vendorDirErrorMsg
  | some _ =>
    let r := Command.handleLoop force ex dl entries
    .ok (r, Command.display_results entries.length r.completed r.failed)

/-- One observable effect of `download_to_local`
(`helpers/downloader.py`): creating the parent directories of `out_path`,
issuing the HTTP GET, or writing the downloaded file. -/
inductive DlEvent where
  | mkdirParent
  | httpGet
  | fileWrite
deriving Repr, DecidableEq

/-- Outcome of `download_to_local`: the ordered effects it performed and
either `ValueError` (raised) or the returned Boolean. -/
structure DlOutcome where
  events : List DlEvent
  result : Except String Bool

/-- `download_to_local` (`helpers/downloader.py` lines 5–51):
`ValueError` when `out_path` is not a `pathlib.Path`; otherwise, with
`parent_mkdir` set, `out_path.parent.mkdir(parents=True, exist_ok=True)`
runs before the request; then `requests.get` plus the chunked write return
`True`, and a `RequestException` (`requestOk = false`) is caught and
`False` returned. -/
def download_to_local (outPathIsPath parent_mkdir requestOk : Bool) : DlOutcome :=
  if !outPathIsPath then
    ⟨[], .error "ValueError"⟩
  else
    let pre := if parent_mkdir then [DlEvent.mkdirParent] else []
    if requestOk then
      ⟨pre ++ [DlEvent.httpGet, DlEvent.fileWrite], .ok true⟩
    else
      ⟨pre ++ [DlEvent.httpGet], .ok false⟩

/-! ### Cache lemmas -/

theorem cacheGet_cons (a : String × ℚ) (c : Cache) (k : String) :
    cacheGet (a :: c) k = if a.1 == k then some a.2 else cacheGet c k := by
  by_cases h : a.1 == k <;> simp [cacheGet, List.find?, h]

theorem cacheGet_set_same (c : Cache) (k : String) (v : ℚ) :
    cacheGet (cacheSet c k v) k = some v := by
  simp [cacheSet, cacheGet_cons]

theorem cacheGet_delete_same (c : Cache) (k : String) :
    cacheGet (cacheDelete c k) k = none := by
  induction c with
  | nil => rfl
  | cons a t ih =>
    by_cases h : a.1 = k
    · simpa [cacheDelete, List.filter_cons, h] using ih
    · simpa [cacheDelete, List.filter_cons, h, cacheGet_cons] using ih

theorem cacheGet_delete_ne (c : Cache) (k k' : String) (h : k' ≠ k) :
    cacheGet (cacheDelete c k) k' = cacheGet c k' := by
  induction c with
  | nil => rfl
  | cons a t ih =>
    rw [cacheDelete, List.filter_cons]
    by_cases hk : a.1 = k
    · have hpa : (!(a.1 == k)) = false := by simp [hk]
      have hk' : (a.1 == k') = false := by
        rw [hk]
        exact beq_eq_false_iff_ne.mpr (fun he => h he.symm)
      rw [hpa]
      simp only [Bool.false_eq_true, if_false]
      rw [cacheGet_cons, hk']
      simp only [Bool.false_eq_true, if_false]
      exact ih
    · have hpa : (!(a.1 == k)) = true := by simp [hk]
      rw [hpa, if_pos rfl, cacheGet_cons, cacheGet_cons]
      by_cases hk2 : (a.1 == k') = true
      · rw [hk2, if_pos rfl, if_pos rfl]
      · have hk2' : (a.1 == k') = false := by
          cases hb : (a.1 == k') with
          | false => rfl
          | true => exact absurd hb hk2
        rw [hk2']
        simp only [Bool.false_eq_true, if_false]
        exact ih

theorem cacheGet_set_ne (c : Cache) (k k' : String) (v : ℚ) (h : k' ≠ k) :
    cacheGet (cacheSet c k v) k' = cacheGet c k' := by
  have hne : (k == k') = false := by
    simp
    exact fun he => h he.symm
  rw [cacheSet, cacheGet_cons]
  simp only [hne, if_false]
  exact cacheGet_delete_ne c k k' h

/-! ### Cache-key disequalities -/

theorem pageCountKey_ne_totalKey (p : String) : pageCountKey p ≠ totalKey := by
  intro h
  have hd := congrArg String.data h
  rw [pageCountKey, totalKey, String.data_append] at hd
  simp at hd

theorem pagePctKey_ne_totalKey (p : String) : pagePctKey p ≠ totalKey := by
  intro h
  have hd := congrArg String.data h
  rw [pagePctKey, totalKey, String.data_append] at hd
  simp at hd

theorem pagePctKey_ne_pageCountKey (p q : String) : pagePctKey p ≠ pageCountKey q := by
  intro h
  have hd := congrArg String.data h
  rw [pagePctKey, pageCountKey, String.data_append, String.data_append] at hd
  simp at hd

/-! ### Invalidation lemmas -/

theorem cacheGet_invalidate_total (c : Cache) (p : String) :
    cacheGet (invalidate_visit_cache c p) totalKey = none := by
  show cacheGet (cacheDelete (cacheDelete (cacheDelete c totalKey) (pageCountKey p)) (pagePctKey p)) totalKey = none
  rw [cacheGet_delete_ne _ _ _ (Ne.symm (pagePctKey_ne_totalKey p)),
    cacheGet_delete_ne _ _ _ (Ne.symm (pageCountKey_ne_totalKey p)),
    cacheGet_delete_same]

theorem cacheGet_invalidate_count (c : Cache) (p : String) :
    cacheGet (invalidate_visit_cache c p) (pageCountKey p) = none := by
  show cacheGet (cacheDelete (cacheDelete (cacheDelete c totalKey) (pageCountKey p)) (pagePctKey p)) (pageCountKey p) = none
  rw [cacheGet_delete_ne _ _ _ (Ne.symm (pagePctKey_ne_pageCountKey p p)),
    cacheGet_delete_same]

theorem cacheGet_invalidate_pct (c : Cache) (p : String) :
    cacheGet (invalidate_visit_cache c p) (pagePctKey p) = none := by
  show cacheGet (cacheDelete (cacheDelete (cacheDelete c totalKey) (pageCountKey p)) (pagePctKey p)) (pagePctKey p) = none
  rw [cacheGet_delete_same]

theorem cacheGet_invalidate_other (c : Cache) (p k : String)
    (h1 : k ≠ totalKey) (h2 : k ≠ pageCountKey p) (h3 : k ≠ pagePctKey p) :
    cacheGet (invalidate_visit_cache c p) k = cacheGet c k := by
  show cacheGet (cacheDelete (cacheDelete (cacheDelete c totalKey) (pageCountKey p)) (pagePctKey p)) k = cacheGet c k
  rw [cacheGet_delete_ne _ _ _ h3, cacheGet_delete_ne _ _ _ h2,
    cacheGet_delete_ne _ _ _ h1]

/-! ### Accessor hit/miss lemmas -/

theorem get_total_hit (db : DB) (c : Cache) (v : ℚ)
    (h : cacheGet c totalKey = some v) :
    get_total_visit_count db c = ⟨v, c, 0⟩ := by
  rw [get_total_visit_count, h]

theorem get_total_miss (db : DB) (c : Cache)
    (h : cacheGet c totalKey = none) :
    get_total_visit_count db c =
      ⟨(db.length : ℚ), cacheSet c totalKey (db.length : ℚ), 1⟩ := by
  rw [get_total_visit_count, h]

theorem get_count_hit (db : DB) (c : Cache) (p : String) (v : ℚ)
    (h : cacheGet c (pageCountKey p) = some v) :
    get_page_visit_count db c p = ⟨v, c, 0⟩ := by
  rw [get_page_visit_count, h]

theorem get_count_miss (db : DB) (c : Cache) (p : String)
    (h : cacheGet c (pageCountKey p) = none) :
    get_page_visit_count db c p =
      ⟨((db.filter (fun q => q == p)).length : ℚ),
        cacheSet c (pageCountKey p) ((db.filter (fun q => q == p)).length : ℚ), 1⟩ := by
  rw [get_page_visit_count, h]

theorem get_pct_hit (db : DB) (c : Cache) (p : String) (v : ℚ)
    (h : cacheGet c (pagePctKey p) = some v) :
    get_page_visit_percentage db c p = ⟨v, c, 0⟩ := by
  rw [get_page_visit_percentage, h]

/-! ### Download-loop characterisations -/

theorem handleLoop_attempted (force : Bool) (ex dl : String → Bool)
    (es : List (String × String)) :
    (Command.handleLoop force ex dl es).attempted =
      es.filter (fun e => !(ex e.1 && !force)) := by
  induction es with
  | nil => rfl
  | cons e rest ih =>
    cases hx : ex e.1 <;> cases hf : force <;> cases hd : dl e.2 <;>
      rw [hf] at ih <;>
        simp [Command.handleLoop, List.filter_cons, hx, hd, ih]

theorem handleLoop_failed (force : Bool) (ex dl : String → Bool)
    (es : List (String × String)) :
    (Command.handleLoop force ex dl es).failed =
      es.filter (fun e => !(ex e.1 && !force) && !(dl e.2)) := by
  induction es with
  | nil => rfl
  | cons e rest ih =>
    cases hx : ex e.1 <;> cases hf : force <;> cases hd : dl e.2 <;>
      rw [hf] at ih <;>
        simp [Command.handleLoop, List.filter_cons, hx, hd, ih]

theorem handleLoop_completed (force : Bool) (ex dl : String → Bool)
    (es : List (String × String)) :
    (Command.handleLoop force ex dl es).completed =
      (es.filter (fun e => (ex e.1 && !force) || dl e.2)).map Prod.snd := by
  induction es with
  | nil => rfl
  | cons e rest ih =>
    cases hx : ex e.1 <;> cases hf : force <;> cases hd : dl e.2 <;>
      rw [hf] at ih <;>
        simp [Command.handleLoop, List.filter_cons, hx, hd, ih]

theorem handleLoop_skipped (force : Bool) (ex dl : String → Bool)
    (es : List (String × String)) :
    (Command.handleLoop force ex dl es).skipped =
      (es.filter (fun e => ex e.1 && !force)).map Prod.fst := by
  induction es with
  | nil => rfl
  | cons e rest ih =>
    cases hx : ex e.1 <;> cases hf : force <;> cases hd : dl e.2 <;>
      rw [hf] at ih <;>
        simp [Command.handleLoop, List.filter_cons, hx, hd, ih]

/-- The page-count accessor returns the same value on two caches that agree
on the page-count key. -/
theorem get_count_value_congr (db : DB) (c c' : Cache) (p : String)
    (h : cacheGet c' (pageCountKey p) = cacheGet c (pageCountKey p)) :
    (get_page_visit_count db c' p).value = (get_page_visit_count db c p).value := by
  rw [get_page_visit_count, get_page_visit_count, h]
  cases cacheGet c (pageCountKey p) <;> rfl

/-! ### Claim theorems -/

/-- C1, counterexample: the claim fails for `VisitMiddleware.__call__`.  On a
trackable GET request whose `Visit` insert raises, the exception propagates
out of the middleware (nothing is logged), so the operation does not return
normally and the page response is not produced. -/
theorem record_error_swallowed_cex :
    (VisitMiddleware.call [] [] ⟨"GET", "/", none, none⟩ false).raised = true ∧
    (VisitMiddleware.call [] [] ⟨"GET", "/", none, none⟩ false).logged = false := by
  decide

/-- C1 (amended): only `BaseVisitView.record_page_visit` catches and logs an
insert error and returns normally; `HomePageView.record_page_visit` and, on
a trackable GET request, `VisitMiddleware.__call__` let the exception
propagate without logging. -/
theorem record_insert_error_handling (db : DB) (c : Cache) (p : String)
    (r : Request)
    (hr : (r.method == "GET" && VisitMiddleware.should_track r) = true) :
    (BaseVisitView.record_page_visit db c p false).raised = false ∧
    (BaseVisitView.record_page_visit db c p false).logged = true ∧
    (BaseVisitView.record_page_visit db c p false).db = db ∧
    (HomePageView.record_page_visit db c p false).raised = true ∧
    (HomePageView.record_page_visit db c p false).logged = false ∧
    (VisitMiddleware.call db c r false).raised = true ∧
    (VisitMiddleware.call db c r false).logged = false := by
  refine ⟨rfl, rfl, rfl, rfl, rfl, ?_, ?_⟩ <;>
    · rw [VisitMiddleware.call, if_pos hr]
      rfl

/-- C1 witness: the amended error-handling theorem at a concrete trackable
request. -/
theorem record_insert_error_handling_witness :
    (BaseVisitView.record_page_visit [] [] "/" false).raised = false ∧
    (BaseVisitView.record_page_visit [] [] "/" false).logged = true ∧
    (BaseVisitView.record_page_visit [] [] "/" false).db = [] ∧
    (HomePageView.record_page_visit [] [] "/" false).raised = true ∧
    (HomePageView.record_page_visit [] [] "/" false).logged = false ∧
    (VisitMiddleware.call [] [] ⟨"GET", "/", none, none⟩ false).raised = true ∧
    (VisitMiddleware.call [] [] ⟨"GET", "/", none, none⟩ false).logged = false :=
  record_insert_error_handling [] [] "/" ⟨"GET", "/", none, none⟩ (by decide)

/-- C2, counterexample: the claim fails for `VisitMiddleware.__call__`.  The
middleware successfully writes a `Visit` row for path "/" but deletes no
cache key: the entry under `"total_visit_count"` survives the write. -/
theorem visit_cache_invalidation_cex :
    (VisitMiddleware.call [] [("total_visit_count", 5)]
      ⟨"GET", "/", none, none⟩ true).db = ["/"] ∧
    cacheGet (VisitMiddleware.call [] [("total_visit_count", 5)]
      ⟨"GET", "/", none, none⟩ true).cache "total_visit_count" = some 5 := by
  decide

/-- C2 (amended): after a successful write through
`BaseVisitView.record_page_visit` or `HomePageView.record_page_visit`,
exactly the three cache keys for the written path are deleted and every
other cache entry is unchanged; a successful write through
`VisitMiddleware.__call__` leaves the whole cache unchanged (it deletes
nothing). -/
theorem visit_cache_invalidation (db : DB) (c : Cache) (p k : String)
    (r : Request)
    (h1 : k ≠ totalKey) (h2 : k ≠ pageCountKey p) (h3 : k ≠ pagePctKey p) :
    (BaseVisitView.record_page_visit db c p true).db = db ++ [p] ∧
    cacheGet (BaseVisitView.record_page_visit db c p true).cache totalKey = none ∧
    cacheGet (BaseVisitView.record_page_visit db c p true).cache (pageCountKey p) = none ∧
    cacheGet (BaseVisitView.record_page_visit db c p true).cache (pagePctKey p) = none ∧
    cacheGet (BaseVisitView.record_page_visit db c p true).cache k = cacheGet c k ∧
    HomePageView.record_page_visit db c p true = BaseVisitView.record_page_visit db c p true ∧
    (VisitMiddleware.call db c r true).cache = c := by
  refine ⟨rfl, cacheGet_invalidate_total c p, cacheGet_invalidate_count c p,
    cacheGet_invalidate_pct c p, cacheGet_invalidate_other c p k h1 h2 h3,
    rfl, ?_⟩
  rw [VisitMiddleware.call]
  split
  · rfl
  · rfl

/-- C2 witness: the amended invalidation theorem at a concrete state, path
and unrelated cache key. -/
theorem visit_cache_invalidation_witness :
    (BaseVisitView.record_page_visit [] [("other", 3)] "/" true).db = [] ++ ["/"] ∧
    cacheGet (BaseVisitView.record_page_visit [] [("other", 3)] "/" true).cache totalKey = none ∧
    cacheGet (BaseVisitView.record_page_visit [] [("other", 3)] "/" true).cache (pageCountKey "/") = none ∧
    cacheGet (BaseVisitView.record_page_visit [] [("other", 3)] "/" true).cache (pagePctKey "/") = none ∧
    cacheGet (BaseVisitView.record_page_visit [] [("other", 3)] "/" true).cache "other" =
      cacheGet [("other", 3)] "other" ∧
    HomePageView.record_page_visit [] [("other", 3)] "/" true =
      BaseVisitView.record_page_visit [] [("other", 3)] "/" true ∧
    (VisitMiddleware.call [] [("other", 3)] ⟨"GET", "/", none, none⟩ true).cache = [("other", 3)] :=
  visit_cache_invalidation [] [("other", 3)] "/" "other"
    ⟨"GET", "/", none, none⟩ (by decide) (by decide) (by decide)

/-- C5 (confirmed): for every request whose method is not GET, the
trackability decision of `VisitMiddleware.__call__` — the code's
realisation of the spec's Request Filter, `request.method == "GET" and
self.should_track(request)` — is false whatever the path and headers, and
the middleware writes no `Visit` row (database, cache, and control flow are
untouched). -/
theorem non_get_never_recorded (db : DB) (c : Cache) (r : Request)
    (insertOk : Bool) (h : r.method ≠ "GET") :
    (r.method == "GET" && VisitMiddleware.should_track r) = false ∧
    VisitMiddleware.call db c r insertOk =
      { db := db, cache := c, logged := false, raised := false } := by
  have hm : (r.method == "GET") = false := beq_eq_false_iff_ne.mpr h
  have hc : (r.method == "GET" && VisitMiddleware.should_track r) = false := by
    rw [hm, Bool.false_and]
  refine ⟨hc, ?_⟩
  rw [VisitMiddleware.call, hc]
  simp only [Bool.false_eq_true, if_false]

/-- C5 witness: a POST request to the root path is not recorded. -/
theorem non_get_never_recorded_witness :
    ((⟨"POST", "/", none, none⟩ : Request).method == "GET" &&
      VisitMiddleware.should_track ⟨"POST", "/", none, none⟩) = false ∧
    VisitMiddleware.call [] [] ⟨"POST", "/", none, none⟩ true =
      { db := [], cache := [], logged := false, raised := false } :=
  non_get_never_recorded [] [] ⟨"POST", "/", none, none⟩ true (by decide)

/-- Shape of the percentage accessor on a cache miss: it recomputes from the
total and page-count accessors and stores its result. -/
theorem pct_miss_eq (db : DB) (c : Cache) (p : String)
    (h : cacheGet c (pagePctKey p) = none) :
    get_page_visit_percentage db c p =
      if (get_total_visit_count db c).value = 0 then
        ⟨0, cacheSet (get_total_visit_count db c).cache (pagePctKey p) 0, 1⟩
      else
        ⟨round2 ((get_page_visit_count db (get_total_visit_count db c).cache p).value /
            (get_total_visit_count db c).value * 100),
          cacheSet (get_page_visit_count db (get_total_visit_count db c).cache p).cache
            (pagePctKey p)
            (round2 ((get_page_visit_count db (get_total_visit_count db c).cache p).value /
              (get_total_visit_count db c).value * 100)), 1⟩ := by
  unfold get_page_visit_percentage
  rw [h]

/-- The page-count value read after a total-count read is the page-count
value of the original cache: storing under the total key does not touch the
page-count key. -/
theorem get_count_after_total (db : DB) (c : Cache) (p : String) :
    (get_page_visit_count db (get_total_visit_count db c).cache p).value =
      (get_page_visit_count db c p).value := by
  cases htk : cacheGet c totalKey with
  | some v => rw [get_total_hit db c v htk]
  | none =>
    rw [get_total_miss db c htk]
    exact get_count_value_congr db c _ p
      (cacheGet_set_ne c totalKey (pageCountKey p) _ (pageCountKey_ne_totalKey p))

/-- C3 (confirmed): when the percentage key is absent from the cache, the
percentage returned by `get_page_visit_percentage` is 0 whenever the total
visit count reads as 0, and `round(page_count / total_count * 100, 2)`
whenever the total is positive; the returned value is also stored under the
percentage key. -/
theorem visit_percentage_formula (db : DB) (c : Cache) (p : String)
    (h : cacheGet c (pagePctKey p) = none) :
    ((get_total_visit_count db c).value = 0 →
      (get_page_visit_percentage db c p).value = 0) ∧
    (0 < (get_total_visit_count db c).value →
      (get_page_visit_percentage db c p).value =
        round2 ((get_page_visit_count db c p).value /
          (get_total_visit_count db c).value * 100)) ∧
    cacheGet (get_page_visit_percentage db c p).cache (pagePctKey p) =
      some (get_page_visit_percentage db c p).value := by
  have hm := pct_miss_eq db c p h
  by_cases ht : (get_total_visit_count db c).value = 0
  · rw [hm, if_pos ht]
    exact ⟨fun _ => rfl, fun hlt => absurd ht (ne_of_gt hlt),
      cacheGet_set_same _ _ _⟩
  · rw [hm, if_neg ht]
    refine ⟨fun h0 => absurd h0 ht, fun hlt => ?_, cacheGet_set_same _ _ _⟩
    rw [get_count_after_total]

/-- C3 witness: the percentage formula at a two-row store with an empty
cache. -/
theorem visit_percentage_formula_witness :
    ((get_total_visit_count ["/", "/a"] []).value = 0 →
      (get_page_visit_percentage ["/", "/a"] [] "/").value = 0) ∧
    (0 < (get_total_visit_count ["/", "/a"] []).value →
      (get_page_visit_percentage ["/", "/a"] [] "/").value =
        round2 ((get_page_visit_count ["/", "/a"] [] "/").value /
          (get_total_visit_count ["/", "/a"] []).value * 100)) ∧
    cacheGet (get_page_visit_percentage ["/", "/a"] [] "/").cache (pagePctKey "/") =
      some (get_page_visit_percentage ["/", "/a"] [] "/").value :=
  visit_percentage_formula ["/", "/a"] [] "/" (by rfl)

/-- C4 (confirmed): for each of the three accessors, immediately after
`_invalidate_visit_cache` removes its key, the next call recomputes its
value exactly once and stores it under the key; a further call on the
resulting cache returns the stored value with no recomputation and leaves
the cache unchanged. -/
theorem cache_read_through (db : DB) (c : Cache) (p : String) :
    ((get_total_visit_count db (invalidate_visit_cache c p)).recomputes = 1 ∧
     cacheGet (get_total_visit_count db (invalidate_visit_cache c p)).cache totalKey =
       some (get_total_visit_count db (invalidate_visit_cache c p)).value ∧
     get_total_visit_count db (get_total_visit_count db (invalidate_visit_cache c p)).cache =
       ⟨(get_total_visit_count db (invalidate_visit_cache c p)).value,
        (get_total_visit_count db (invalidate_visit_cache c p)).cache, 0⟩) ∧
    ((get_page_visit_count db (invalidate_visit_cache c p) p).recomputes = 1 ∧
     cacheGet (get_page_visit_count db (invalidate_visit_cache c p) p).cache (pageCountKey p) =
       some (get_page_visit_count db (invalidate_visit_cache c p) p).value ∧
     get_page_visit_count db (get_page_visit_count db (invalidate_visit_cache c p) p).cache p =
       ⟨(get_page_visit_count db (invalidate_visit_cache c p) p).value,
        (get_page_visit_count db (invalidate_visit_cache c p) p).cache, 0⟩) ∧
    ((get_page_visit_percentage db (invalidate_visit_cache c p) p).recomputes = 1 ∧
     cacheGet (get_page_visit_percentage db (invalidate_visit_cache c p) p).cache (pagePctKey p) =
       some (get_page_visit_percentage db (invalidate_visit_cache c p) p).value ∧
     get_page_visit_percentage db (get_page_visit_percentage db (invalidate_visit_cache c p) p).cache p =
       ⟨(get_page_visit_percentage db (invalidate_visit_cache c p) p).value,
        (get_page_visit_percentage db (invalidate_visit_cache c p) p).cache, 0⟩) := by
  refine ⟨?_, ?_, ?_⟩
  · rw [get_total_miss db (invalidate_visit_cache c p) (cacheGet_invalidate_total c p)]
    exact ⟨rfl, cacheGet_set_same _ _ _,
      get_total_hit _ _ _ (cacheGet_set_same _ _ _)⟩
  · rw [get_count_miss db (invalidate_visit_cache c p) p (cacheGet_invalidate_count c p)]
    exact ⟨rfl, cacheGet_set_same _ _ _,
      get_count_hit _ _ _ _ (cacheGet_set_same _ _ _)⟩
  · have hp := pct_miss_eq db (invalidate_visit_cache c p) p (cacheGet_invalidate_pct c p)
    by_cases ht : (get_total_visit_count db (invalidate_visit_cache c p)).value = 0
    · rw [hp, if_pos ht]
      exact ⟨rfl, cacheGet_set_same _ _ _,
        get_pct_hit _ _ _ _ (cacheGet_set_same _ _ _)⟩
    · rw [hp, if_neg ht]
      exact ⟨rfl, cacheGet_set_same _ _ _,
        get_pct_hit _ _ _ _ (cacheGet_set_same _ _ _)⟩

/-- C6 (confirmed): when no destination file pre-exists and some downloads
fail while others succeed, the vendor-pull loop still attempts every entry,
its failed list is exactly the filename/URL pairs whose download returned
failure, and the command reports partial success listing exactly those
pairs. -/
theorem vendor_pull_partial_failure (vdir : String) (force : Bool)
    (ex dl : String → Bool) (entries : List (String × String))
    (hnoskip : ∀ e ∈ entries, ex e.1 = false)
    (hfail : ∃ e ∈ entries, dl e.2 = false)
    (hsucc : ∃ e ∈ entries, dl e.2 = true) :
    (Command.handleLoop force ex dl entries).attempted = entries ∧
    (Command.handleLoop force ex dl entries).failed =
      entries.filter (fun e => !(dl e.2)) ∧
    Command.handle (some vdir) force ex dl entries =
      .ok (Command.handleLoop force ex dl entries,
        Summary.mixedSuccess (Command.handleLoop force ex dl entries).completed.length
          entries.length (entries.filter (fun e => !(dl e.2)))) := by
  have hatt : (Command.handleLoop force ex dl entries).attempted = entries := by
    rw [handleLoop_attempted]
    refine List.filter_eq_self.mpr (fun e he => ?_)
    rw [hnoskip e he, Bool.false_and, Bool.not_false]
  have hfl : (Command.handleLoop force ex dl entries).failed =
      entries.filter (fun e => !(dl e.2)) := by
    rw [handleLoop_failed]
    refine List.filter_congr (fun e he => ?_)
    rw [hnoskip e he, Bool.false_and, Bool.not_false, Bool.true_and]
  have hflne : ¬((Command.handleLoop force ex dl entries).failed.length = 0) := by
    rw [hfl]
    obtain ⟨e, he, hde⟩ := hfail
    have hmem : e ∈ entries.filter (fun e => !(dl e.2)) :=
      List.mem_filter.mpr ⟨he, by rw [hde]; rfl⟩
    have hpos := List.length_pos.mpr (List.ne_nil_of_mem hmem)
    omega
  have hcpos : 0 < (Command.handleLoop force ex dl entries).completed.length := by
    rw [handleLoop_completed]
    obtain ⟨e, he, hde⟩ := hsucc
    have hmem : e ∈ entries.filter (fun e => (ex e.1 && !force) || dl e.2) :=
      List.mem_filter.mpr ⟨he, by rw [hde, Bool.or_true]⟩
    have := List.mem_map_of_mem Prod.snd hmem
    exact List.length_pos.mpr (List.ne_nil_of_mem this)
  refine ⟨hatt, hfl, ?_⟩
  show Except.ok (Command.handleLoop force ex dl entries,
      Command.display_results entries.length
        (Command.handleLoop force ex dl entries).completed
        (Command.handleLoop force ex dl entries).failed) = _
  rw [Command.display_results, if_neg hflne, if_pos hcpos, hfl]

/-- C6 witness: the partial-failure theorem on a two-entry map where the
first download fails and the second succeeds. -/
theorem vendor_pull_partial_failure_witness :
    (Command.handleLoop false (fun _ => false) (fun u => u == "u2")
      [("a.css", "u1"), ("b.js", "u2")]).attempted = [("a.css", "u1"), ("b.js", "u2")] ∧
    (Command.handleLoop false (fun _ => false) (fun u => u == "u2")
      [("a.css", "u1"), ("b.js", "u2")]).failed =
      [("a.css", "u1"), ("b.js", "u2")].filter (fun e => !((fun u => u == "u2") e.2)) ∧
    Command.handle (some "vendors") false (fun _ => false) (fun u => u == "u2")
      [("a.css", "u1"), ("b.js", "u2")] =
      .ok (Command.handleLoop false (fun _ => false) (fun u => u == "u2")
        [("a.css", "u1"), ("b.js", "u2")],
        Summary.mixedSuccess
          (Command.handleLoop false (fun _ => false) (fun u => u == "u2")
            [("a.css", "u1"), ("b.js", "u2")]).completed.length
          ([("a.css", "u1"), ("b.js", "u2")] : List (String × String)).length
          ([("a.css", "u1"), ("b.js", "u2")].filter (fun e => !((fun u => u == "u2") e.2)))) :=
  vendor_pull_partial_failure "vendors" false (fun _ => false) (fun u => u == "u2")
    [("a.css", "u1"), ("b.js", "u2")] (by decide)
    ⟨("a.css", "u1"), by decide, by decide⟩
    ⟨("b.js", "u2"), by decide, by decide⟩

/-- C7 (confirmed): with the `STATICFILES_VENDOR_DIR` setting absent,
`Command.handle` raises `CommandError` with the configuration message
before the download loop: it never returns a loop outcome, so no file is
downloaded, skipped or reported. -/
theorem vendor_dir_missing (force : Bool) (ex dl : String → Bool)
    (entries : List (String × String)) :
    Command.handle none force ex dl entries = .error vendorDirErrorMsg ∧
    ∀ res : PullResult × Summary,
      Command.handle none force ex dl entries ≠ .ok res := by
  refine ⟨rfl, fun res h => ?_⟩
  exact Except.noConfusion h

/-- C8 (confirmed): for an entry of the download map whose destination file
already exists, the vendor-pull loop with the force flag off performs no
download for it and reports it as skipped (its URL still counted as
completed); with the force flag on, the entry is downloaded regardless of
prior existence. -/
theorem vendor_skip_and_force (force : Bool) (ex dl : String → Bool)
    (entries : List (String × String)) (e : String × String)
    (he : e ∈ entries) :
    (ex e.1 = true → force = false →
      e ∉ (Command.handleLoop force ex dl entries).attempted ∧
      e.1 ∈ (Command.handleLoop force ex dl entries).skipped ∧
      e.2 ∈ (Command.handleLoop force ex dl entries).completed) ∧
    (force = true → e ∈ (Command.handleLoop force ex dl entries).attempted) := by
  constructor
  · intro hex hf
    subst hf
    refine ⟨?_, ?_, ?_⟩
    · rw [handleLoop_attempted]
      intro hmem
      have hp := (List.mem_filter.mp hmem).2
      rw [hex] at hp
      simp at hp
    · rw [handleLoop_skipped]
      refine List.mem_map_of_mem _ (List.mem_filter.mpr ⟨he, ?_⟩)
      rw [hex]
      rfl
    · rw [handleLoop_completed]
      refine List.mem_map_of_mem _ (List.mem_filter.mpr ⟨he, ?_⟩)
      rw [hex]
      rfl
  · intro hf
    subst hf
    rw [handleLoop_attempted]
    refine List.mem_filter.mpr ⟨he, ?_⟩
    simp

/-- C8 witness: the skip/force theorem for an existing file in a singleton
map. -/
theorem vendor_skip_and_force_witness :
    ((fun _ => true : String → Bool) ("a.css", "u1").1 = true → false = false →
      ("a.css", "u1") ∉ (Command.handleLoop false (fun _ => true) (fun _ => true)
        [("a.css", "u1")]).attempted ∧
      ("a.css", "u1").1 ∈ (Command.handleLoop false (fun _ => true) (fun _ => true)
        [("a.css", "u1")]).skipped ∧
      ("a.css", "u1").2 ∈ (Command.handleLoop false (fun _ => true) (fun _ => true)
        [("a.css", "u1")]).completed) ∧
    (false = true → ("a.css", "u1") ∈ (Command.handleLoop false (fun _ => true)
      (fun _ => true) [("a.css", "u1")]).attempted) :=
  vendor_skip_and_force false (fun _ => true) (fun _ => true)
    [("a.css", "u1")] ("a.css", "u1") (by decide)

/-- C9 (confirmed): with the force flag off and every destination file
already present, the vendor-pull loop attempts no download and fails
nothing, every skipped entry's URL is counted as completed, and the final
summary reports that all files were successfully downloaded even though no
download occurred. -/
theorem vendor_all_skipped_success (vdir : String) (ex dl : String → Bool)
    (entries : List (String × String))
    (hex : ∀ e ∈ entries, ex e.1 = true) :
    (Command.handleLoop false ex dl entries).attempted = [] ∧
    (Command.handleLoop false ex dl entries).failed = [] ∧
    (Command.handleLoop false ex dl entries).completed = entries.map Prod.snd ∧
    Command.handle (some vdir) false ex dl entries =
      .ok (Command.handleLoop false ex dl entries,
        Summary.allSuccess entries.length) := by
  have hatt : (Command.handleLoop false ex dl entries).attempted = [] := by
    rw [handleLoop_attempted, List.filter_eq_nil_iff]
    intro e he
    rw [hex e he]
    simp
  have hfl : (Command.handleLoop false ex dl entries).failed = [] := by
    rw [handleLoop_failed, List.filter_eq_nil_iff]
    intro e he
    rw [hex e he]
    simp
  have hcomp : (Command.handleLoop false ex dl entries).completed =
      entries.map Prod.snd := by
    rw [handleLoop_completed]
    congr 1
    refine List.filter_eq_self.mpr (fun e he => ?_)
    rw [hex e he]
    rfl
  refine ⟨hatt, hfl, hcomp, ?_⟩
  show Except.ok (Command.handleLoop false ex dl entries,
      Command.display_results entries.length
        (Command.handleLoop false ex dl entries).completed
        (Command.handleLoop false ex dl entries).failed) = _
  rw [hfl, Command.display_results]
  simp

/-- C9 witness: the all-skipped theorem on a two-entry map whose files all
exist. -/
theorem vendor_all_skipped_success_witness :
    (Command.handleLoop false (fun _ => true) (fun _ => false)
      [("a.css", "u1"), ("b.js", "u2")]).attempted = [] ∧
    (Command.handleLoop false (fun _ => true) (fun _ => false)
      [("a.css", "u1"), ("b.js", "u2")]).failed = [] ∧
    (Command.handleLoop false (fun _ => true) (fun _ => false)
      [("a.css", "u1"), ("b.js", "u2")]).completed =
      [("a.css", "u1"), ("b.js", "u2")].map Prod.snd ∧
    Command.handle (some "vendors") false (fun _ => true) (fun _ => false)
      [("a.css", "u1"), ("b.js", "u2")] =
      .ok (Command.handleLoop false (fun _ => true) (fun _ => false)
        [("a.css", "u1"), ("b.js", "u2")],
        Summary.allSuccess ([("a.css", "u1"), ("b.js", "u2")] : List (String × String)).length) :=
  vendor_all_skipped_success "vendors" (fun _ => true) (fun _ => false)
    [("a.css", "u1"), ("b.js", "u2")] (by decide)

/-- C10 (confirmed): `download_to_local` raises `ValueError` for every
`out_path` that is not a `pathlib.Path` (before any effect); with a `Path`
argument and `parent_mkdir` true (its default), the parent directories are
created first — before the HTTP request — so they exist afterwards even in
the failure case, where the function returns False. -/
theorem download_to_local_guard :
    (∀ pm rq, download_to_local false pm rq = ⟨[], Except.error "ValueError"⟩) ∧
    (∀ rq, (download_to_local true true rq).events.head? = some DlEvent.mkdirParent) ∧
    (download_to_local true true false).result = Except.ok false ∧
    DlEvent.mkdirParent ∈ (download_to_local true true false).events := by
  refine ⟨fun pm rq => rfl, fun rq => ?_, rfl, ?_⟩
  · cases rq <;> rfl
  · show DlEvent.mkdirParent ∈ [DlEvent.mkdirParent, DlEvent.httpGet]
    exact List.mem_cons_self _ _

/-- C7 witness: the missing-setting theorem at the repository's actual
vendor map. -/
theorem vendor_dir_missing_witness :
    Command.handle none false (fun _ => false) (fun _ => true) VENDOR_STATICFILES =
      .error vendorDirErrorMsg ∧
    ∀ res : PullResult × Summary,
      Command.handle none false (fun _ => false) (fun _ => true) VENDOR_STATICFILES ≠ .ok res :=
  vendor_dir_missing false (fun _ => false) (fun _ => true) VENDOR_STATICFILES
